import Mathlib

/-!
Verification development for the `lazy` backup scheduler.

The definitions below are a shallow embedding of the Go sources:
* `internal/scheduler/scheduler.go` — the scheduler service (`AddBackupJob`,
  `GetScheduledJobs`, `executeBackup`, `updateBackupHistory`);
* the notification manager (`SendBackupSuccessNotification`,
  `SendBackupErrorNotification`, `TestNotification`,
  `createNotifierFromConfig`, `GetEnabledNotificationConfigs`).

External effects (the cron parser, database writes, the backup binary, the
filesystem, Google Drive, webhook sends) are modelled as oracle parameters,
and side-effecting runs return explicit traces of the calls they perform.
-/

namespace Lazy

/-! ## Scheduler data model (scheduler.go) -/

/-- Go struct database.BackupConfig: name, backup mode, database URL/type, cron
schedule and enabled flag (timestamps and the numeric id are irrelevant to
the scheduler logic and omitted). -/
structure BackupConfig where
  name : String
  backupMode : String
  databaseURL : String
  databaseType : String
  cronSchedule : String
  enabled : Bool
deriving Repr, DecidableEq

/-- The scheduler's mutable state: the `jobs` map (job name ↦ cron entry id,
kept as an association list), the set of live cron entries, and the next
entry id the cron runner would hand out. -/
structure SchedState where
  jobs : List (String × Nat)
  entries : List Nat
  nextId : Nat
deriving Repr, DecidableEq

/-- Fresh scheduler state (`NewService`): empty jobs map, no cron entries. -/
def initState : SchedState := ⟨[], [], 0⟩

/-- Map lookup `s.jobs[name]`. -/
def lookupJob (name : String) (jobs : List (String × Nat)) : Option Nat :=
  (jobs.find? (fun p => p.1 == name)).map Prod.snd

/-- Go method Service.AddBackupJob.  `validCron` is the oracle for the robfig cron
parser (`cron.AddFunc` fails exactly when the expression is malformed).
Returns the Go error (if any) together with the state after the call: note
that the pre-existing entry for the name is removed *before* the cron
expression is parsed, exactly as in the source. -/
def AddBackupJob (validCron : String → Bool) (config : BackupConfig)
    (s : SchedState) : Option String × SchedState :=
  if !config.enabled then
    (some ("backup config '" ++ config.name ++ "' is disabled"), s)
  else
    let s1 :=
      match lookupJob config.name s.jobs with
      | some entryID =>
          { s with
            entries := s.entries.filter (fun e => e != entryID),
            jobs := s.jobs.filter (fun p => p.1 != config.name) }
      | none => s
    if validCron config.cronSchedule then
      (none,
        { jobs := s1.jobs ++ [(config.name, s1.nextId)],
          entries := s1.entries ++ [s1.nextId],
          nextId := s1.nextId + 1 })
    else
      (some "failed to add cron job", s1)

/-- Go struct scheduler.JobInfo as returned by `GetScheduledJobs` (next/previous fire
times are runtime clock data, omitted). -/
structure JobInfo where
  name : String
  entryID : Nat
deriving Repr, DecidableEq

/-- Go method Service.GetScheduledJobs: one `JobInfo` per entry of the jobs map. -/
def GetScheduledJobs (s : SchedState) : List JobInfo :=
  s.jobs.map (fun p => ⟨p.1, p.2⟩)

/-- Number of scheduled entries carrying a given job name. -/
def countName (name : String) (infos : List JobInfo) : Nat :=
  (infos.filter (fun j => j.name == name)).length

/-! ### Helper lemmas about the jobs map -/

lemma filter_ne_self_eq_nil (name : String) (l : List (String × Nat)) :
    (l.filter (fun p => p.1 != name)).filter (fun p => p.1 == name) = [] := by
  induction l with
  | nil => simp
  | cons p t ih =>
      by_cases h : p.1 = name
      · simp [List.filter, h, ih]
      · simp only [List.filter, h]
        have hb : (p.1 != name) = true := by simp [h]
        have hb2 : (p.1 == name) = false := by simp [h]
        simp [hb, hb2, ih]

lemma find?_filter_ne (name : String) (l : List (String × Nat)) :
    (l.filter (fun p => p.1 != name)).find? (fun p => p.1 == name) = none := by
  rw [List.find?_eq_none]
  intro x hx
  have := (List.mem_filter.mp hx).2
  simpa using this

lemma filter_eq_nil_of_find?_none (name : String) (l : List (String × Nat))
    (h : l.find? (fun p => p.1 == name) = none) :
    l.filter (fun p => p.1 == name) = [] := by
  rw [List.filter_eq_nil_iff]
  intro x hx
  have := List.find?_eq_none.mp h x hx
  simpa using this

/-- After a successful `AddBackupJob` for an enabled config with a valid cron
expression, the jobs map holds exactly one entry for that name, whatever the
prior state was. -/
lemma countKey_addBackupJob (validCron : String → Bool) (config : BackupConfig)
    (s : SchedState) (hen : config.enabled = true)
    (hv : validCron config.cronSchedule = true) :
    ((AddBackupJob validCron config s).2.jobs.filter
      (fun p => p.1 == config.name)).length = 1 := by
  unfold AddBackupJob
  simp only [hen, Bool.not_true, Bool.false_eq_true, if_false, hv, if_true]
  cases hfind : lookupJob config.name s.jobs with
  | some entryID =>
      simp only [List.filter_append, List.length_append,
        filter_ne_self_eq_nil config.name s.jobs]
      simp
  | none =>
      have h0 : s.jobs.filter (fun p => p.1 == config.name) = [] := by
        apply filter_eq_nil_of_find?_none
        unfold lookupJob at hfind
        exact Option.map_eq_none.mp hfind
      simp only [List.filter_append, List.length_append, h0]
      simp

/-- C6: the registry holds at most one entry per name — after any
`AddOrReplaceJob` (`AddBackupJob`) call for an enabled config with a valid
cron expression, starting from an arbitrary prior state (hence after any
sequence of prior calls, re-adds of the same name included), `ListScheduled`
(`GetScheduledJobs`) shows exactly one entry for that name, never two. -/
theorem addBackupJob_unique_entry (validCron : String → Bool)
    (config : BackupConfig) (s : SchedState) (hen : config.enabled = true)
    (hv : validCron config.cronSchedule = true) :
    countName config.name
      (GetScheduledJobs (AddBackupJob validCron config s).2) = 1 := by
  unfold countName GetScheduledJobs
  rw [List.filter_map, List.length_map]
  exact countKey_addBackupJob validCron config s hen hv

/-- Witness for C6: re-adding the job name "nightly" over a state that
already schedules it yields exactly one "nightly" entry. -/
theorem addBackupJob_unique_entry_witness :
    countName "nightly"
      (GetScheduledJobs
        (AddBackupJob (fun _ => true)
          ⟨"nightly", "full", "mysql://u@h/db", "mysql", "0 0 2 * * *", true⟩
          ⟨[("nightly", 0), ("weekly", 1)], [0, 1], 2⟩).2) = 1 :=
  addBackupJob_unique_entry (fun _ => true)
    ⟨"nightly", "full", "mysql://u@h/db", "mysql", "0 0 2 * * *", true⟩
    ⟨[("nightly", 0), ("weekly", 1)], [0, 1], 2⟩ rfl rfl

/-- C1 counterexample: with a live entry `("nightly", 0)` in the registry,
`AddBackupJob` on an enabled config for the same name with a malformed cron
expression does return an error, but the registry is mutated: the
pre-existing entry for "nightly" is gone afterwards, refuting "the
pre-existing entry for that name is still present". -/
theorem addBackupJob_invalid_cron_cex :
    (AddBackupJob (fun _ => false)
      ⟨"nightly", "full", "mysql://u@h/db", "mysql", "not a cron", true⟩
      ⟨[("nightly", 0)], [0], 1⟩).1 = some "failed to add cron job" ∧
    lookupJob "nightly"
      (AddBackupJob (fun _ => false)
        ⟨"nightly", "full", "mysql://u@h/db", "mysql", "not a cron", true⟩
        ⟨[("nightly", 0)], [0], 1⟩).2.jobs = none := by
  constructor <;> rfl

/-- C1 amended: `AddBackupJob` on an enabled config whose name has a live
entry and whose cron expression is malformed returns a validation error, but
the registry *is* mutated: the pre-existing entry is removed before the cron
expression is parsed, so afterwards the name has no scheduled entry at all. -/
theorem addBackupJob_invalid_cron_amended (validCron : String → Bool)
    (config : BackupConfig) (s : SchedState) (e : Nat)
    (hen : config.enabled = true)
    (hlive : lookupJob config.name s.jobs = some e)
    (hbad : validCron config.cronSchedule = false) :
    (AddBackupJob validCron config s).1 = some "failed to add cron job" ∧
    lookupJob config.name (AddBackupJob validCron config s).2.jobs = none := by
  have hfind :
      Option.map Prod.snd (List.find? (fun p => p.1 == config.name) s.jobs) =
        some e := hlive
  constructor
  · simp [AddBackupJob, hen, hbad, lookupJob, hfind]
  · simp only [AddBackupJob, hen, Bool.not_true, lookupJob, hfind]
    simp only [hbad, Bool.false_eq_true, if_false]
    rw [find?_filter_ne]
    rfl

/-- Witness for the amended C1. -/
theorem addBackupJob_invalid_cron_amended_witness :
    (AddBackupJob (fun _ => false)
      ⟨"nightly", "full", "mysql://u@h/db", "mysql", "not a cron", true⟩
      ⟨[("nightly", 0)], [0], 1⟩).1 = some "failed to add cron job" ∧
    lookupJob "nightly"
      (AddBackupJob (fun _ => false)
        ⟨"nightly", "full", "mysql://u@h/db", "mysql", "not a cron", true⟩
        ⟨[("nightly", 0)], [0], 1⟩).2.jobs = none :=
  addBackupJob_invalid_cron_amended (fun _ => false)
    ⟨"nightly", "full", "mysql://u@h/db", "mysql", "not a cron", true⟩
    ⟨[("nightly", 0)], [0], 1⟩ 0 rfl rfl rfl

/-! ## Backup run model (executeBackup in scheduler.go)

`executeBackup` is embedded as a function from an environment of collaborator
oracles to the trace of effectful calls the run performs, in program order. -/

/-- One effectful call made during a backup run. -/
inductive Ev where
  /-- Call to dbService.SaveBackupHistory (the initial `in_progress` record). -/
  | saveHistory
  /-- Call to backup.NewBackupFromURL. -/
  | newBackupService
  /-- Call to backupService.TestConnection. -/
  | testConnection
  /-- Call to backupService.BackupSchema (the `"full"` mode branch). -/
  | backupFull
  /-- Call to backupService.BackupSchemaOnly (the `"schema"` mode branch). -/
  | backupSchemaOnly
  /-- Call to os.Stat on the backup path. -/
  | statFile (path : String)
  /-- Call to driveService.GetOrCreateFolder. -/
  | getOrCreateFolder (name : String)
  /-- Call to driveService.UploadFile. -/
  | uploadFile (path : String)
  /-- Call to notifyManager.SendBackupErrorNotification (from `updateBackupHistory`). -/
  | sendErrorNotif
  /-- Call to dbService.UpdateBackupHistory writing the terminal record; the flag
  records that `CompletedAt` was set. -/
  | updateHistory (status : String) (completedAtSet : Bool)
  /-- Call to notifyManager.SendBackupSuccessNotification. -/
  | sendSuccessNotif
  /-- Call to cleanupTempFile, i.e. os.Remove of the temporary artifact. -/
  | cleanupTempFile (path : String)
deriving Repr, DecidableEq

/-- Upload result fields (gdrive.UploadResult) used by the run. -/
structure UploadResult where
  fileName : String
  fileID : String
  size : Int
deriving Repr, DecidableEq

/-- Oracles for the collaborators `executeBackup` calls: each field is the
outcome the corresponding external call would produce during this run. -/
structure BackupEnv where
  saveHistoryOk : Bool
  newBackupResult : Except String Unit
  testConnOk : Bool
  backupFullResult : Except String String
  backupSchemaOnlyResult : Except String String
  stat : String → Option Int
  folderResult : Except String String
  uploadResult : String → Except String UploadResult

/-- Go method Service.updateBackupHistory: sets status/fields and `CompletedAt`
(always), sends the error fan-out first when the status is `"failed"`, then
writes the record. -/
def updateBackupHistory (status : String) : List Ev :=
  (if status = "failed" then [Ev.sendErrorNotif] else []) ++
    [Ev.updateHistory status true]

/-- The switch-on-BackupMode block of `executeBackup`: the backup call
it performs (if any) and the resulting backup path — the switch has no
default branch, so any other mode leaves `backupPath` empty and performs no
backup call. -/
def backupStage (env : BackupEnv) (config : BackupConfig) :
    List Ev × Except String String :=
  if config.backupMode = "full" then
    ([Ev.backupFull], env.backupFullResult)
  else if config.backupMode = "schema" then
    ([Ev.backupSchemaOnly], env.backupSchemaOnlyResult)
  else
    ([], Except.ok "")

/-- Go method Service.executeBackup: the trace of effectful calls of one run, in
program order. Mirrors the Go control flow: save history (abort on failure),
create the backup service, test the connection, run the mode switch, stat the
backup path, find-or-create the Drive folder, upload, then the terminal
history update, notifications and temp-file cleanup exactly where the source
performs them. -/
def executeBackup (env : BackupEnv) (config : BackupConfig) : List Ev :=
  [Ev.saveHistory] ++
  if env.saveHistoryOk = false then []
  else
    [Ev.newBackupService] ++
    match env.newBackupResult with
    | Except.error _ => updateBackupHistory "failed"
    | Except.ok _ =>
      [Ev.testConnection] ++
      if env.testConnOk = false then updateBackupHistory "failed"
      else
        match backupStage env config with
        | (evs, Except.error _) => evs ++ updateBackupHistory "failed"
        | (evs, Except.ok backupPath) =>
          evs ++ [Ev.statFile backupPath] ++
          match env.stat backupPath with
          | none => updateBackupHistory "failed"
          | some _ =>
            [Ev.getOrCreateFolder ("DB Backups - " ++ config.name)] ++
            match env.folderResult with
            | Except.error _ =>
                updateBackupHistory "failed" ++ [Ev.cleanupTempFile backupPath]
            | Except.ok folderId =>
              [Ev.uploadFile backupPath] ++
              match env.uploadResult folderId with
              | Except.error _ =>
                  updateBackupHistory "failed" ++ [Ev.cleanupTempFile backupPath]
              | Except.ok _ =>
                  updateBackupHistory "success" ++
                    [Ev.sendSuccessNotif, Ev.cleanupTempFile backupPath]

/-- Holds exactly on temp-file cleanup events. -/
def isCleanup : Ev → Bool
  | Ev.cleanupTempFile _ => true
  | _ => false

/-- Concrete full-mode job config used by the witnesses. -/
def cfgFull : BackupConfig :=
  ⟨"nightly", "full", "mysql://u@h/db", "mysql", "0 0 2 * * *", true⟩

/-- Concrete job config whose backup mode is the spec's "schemaOnly"
spelling, which the mode switch does not recognise. -/
def cfgSchemaOnly : BackupConfig :=
  ⟨"legacy", "schemaOnly", "mysql://u@h/db", "mysql", "0 0 2 * * *", true⟩

/-- Environment in which every collaborator call succeeds; the filesystem
has no file at the empty path. -/
def envAllOk : BackupEnv :=
  { saveHistoryOk := true
    newBackupResult := Except.ok ()
    testConnOk := true
    backupFullResult := Except.ok "/tmp/db-backups/x.sql"
    backupSchemaOnlyResult := Except.ok "/tmp/db-backups/x.sql"
    stat := fun pth => if pth = "" then none else some 2048
    folderResult := Except.ok "F1"
    uploadResult := fun _ => Except.ok ⟨"x.sql", "D1", 2048⟩ }

/-- C10: when writing the initial `in_progress` history record fails,
`executeBackup` aborts at once — the trace is just that one failed save: no
backup call, no upload, no terminal history write, and no notification of
either kind. -/
theorem executeBackup_save_failure_aborts (env : BackupEnv)
    (config : BackupConfig) (hs : env.saveHistoryOk = false) :
    executeBackup env config = [Ev.saveHistory] ∧
    Ev.backupFull ∉ executeBackup env config ∧
    Ev.backupSchemaOnly ∉ executeBackup env config ∧
    (∀ p, Ev.uploadFile p ∉ executeBackup env config) ∧
    (∀ st b, Ev.updateHistory st b ∉ executeBackup env config) ∧
    Ev.sendSuccessNotif ∉ executeBackup env config ∧
    Ev.sendErrorNotif ∉ executeBackup env config := by
  have h : executeBackup env config = [Ev.saveHistory] := by
    simp [executeBackup, hs]
  refine ⟨h, ?_, ?_, ?_, ?_, ?_, ?_⟩ <;> simp [h]

/-- Environment whose initial history save fails. -/
def envSaveFail : BackupEnv := { envAllOk with saveHistoryOk := false }

/-- Witness for C10. -/
theorem executeBackup_save_failure_aborts_witness :
    executeBackup envSaveFail cfgFull = [Ev.saveHistory] :=
  (executeBackup_save_failure_aborts envSaveFail cfgFull rfl).1

/-- C5: when the artifact-request stage (the mode's backup call) fails, the
terminal history record is written with status "failed" and `CompletedAt`
set, and no Storage call happens: neither folder find-or-create nor upload
appears in the trace. -/
theorem executeBackup_backup_failure_no_storage (env : BackupEnv)
    (config : BackupConfig) (hs : env.saveHistoryOk = true)
    (hn : env.newBackupResult = Except.ok ()) (hc : env.testConnOk = true)
    (hb : (config.backupMode = "full" ∧
            (∃ m, env.backupFullResult = Except.error m)) ∨
          (config.backupMode = "schema" ∧
            (∃ m, env.backupSchemaOnlyResult = Except.error m))) :
    Ev.updateHistory "failed" true ∈ executeBackup env config ∧
    (∀ n, Ev.getOrCreateFolder n ∉ executeBackup env config) ∧
    (∀ p, Ev.uploadFile p ∉ executeBackup env config) := by
  rcases hb with ⟨hm, m, he⟩ | ⟨hm, m, he⟩
  · have htr : executeBackup env config =
        [Ev.saveHistory, Ev.newBackupService, Ev.testConnection, Ev.backupFull,
         Ev.sendErrorNotif, Ev.updateHistory "failed" true] := by
      simp [executeBackup, backupStage, updateBackupHistory, hs, hn, hc, hm, he]
    refine ⟨?_, ?_, ?_⟩ <;> simp [htr]
  · have htr : executeBackup env config =
        [Ev.saveHistory, Ev.newBackupService, Ev.testConnection,
         Ev.backupSchemaOnly, Ev.sendErrorNotif,
         Ev.updateHistory "failed" true] := by
      simp [executeBackup, backupStage, updateBackupHistory, hs, hn, hc, hm, he]
    refine ⟨?_, ?_, ?_⟩ <;> simp [htr]

/-- Environment whose backup call is refused by the database. -/
def envBackupFail : BackupEnv :=
  { envAllOk with backupFullResult := Except.error "connection refused" }

/-- Witness for C5. -/
theorem executeBackup_backup_failure_no_storage_witness :
    Ev.updateHistory "failed" true ∈ executeBackup envBackupFail cfgFull :=
  (executeBackup_backup_failure_no_storage envBackupFail cfgFull rfl rfl rfl
    (Or.inl ⟨rfl, "connection refused", rfl⟩)).1

/-- C9: for a backup mode that is neither "full" nor "schema" (e.g. the
spec's "schemaOnly"), the mode switch performs no backup call, the path
stays empty, the stat of the empty path fails (no file exists at ""), and
the run is recorded as failed with no folder or upload call. -/
theorem executeBackup_unknown_mode (env : BackupEnv) (config : BackupConfig)
    (hs : env.saveHistoryOk = true) (hn : env.newBackupResult = Except.ok ())
    (hc : env.testConnOk = true) (hm1 : config.backupMode ≠ "full")
    (hm2 : config.backupMode ≠ "schema") (hstat : env.stat "" = none) :
    executeBackup env config =
      [Ev.saveHistory, Ev.newBackupService, Ev.testConnection, Ev.statFile "",
       Ev.sendErrorNotif, Ev.updateHistory "failed" true] ∧
    Ev.backupFull ∉ executeBackup env config ∧
    Ev.backupSchemaOnly ∉ executeBackup env config ∧
    (∀ n, Ev.getOrCreateFolder n ∉ executeBackup env config) ∧
    (∀ p, Ev.uploadFile p ∉ executeBackup env config) := by
  have htr : executeBackup env config =
      [Ev.saveHistory, Ev.newBackupService, Ev.testConnection, Ev.statFile "",
       Ev.sendErrorNotif, Ev.updateHistory "failed" true] := by
    simp [executeBackup, backupStage, updateBackupHistory, hs, hn, hc, hm1,
      hm2, hstat]
  refine ⟨htr, ?_, ?_, ?_, ?_⟩ <;> simp [htr]

/-- Witness for C9, with the spec's own "schemaOnly" spelling. -/
theorem executeBackup_unknown_mode_witness :
    executeBackup envAllOk cfgSchemaOnly =
      [Ev.saveHistory, Ev.newBackupService, Ev.testConnection, Ev.statFile "",
       Ev.sendErrorNotif, Ev.updateHistory "failed" true] :=
  (executeBackup_unknown_mode envAllOk cfgSchemaOnly rfl rfl rfl
    (by decide) (by decide) rfl).1

/-- Environment in which the backup is created but stat on the created
artifact fails. -/
def envStatFail : BackupEnv := { envAllOk with stat := fun _ => none }

/-- C3 counterexample: with a successfully created full backup whose stat
call then fails, the run performed the artifact-creating backup call, yet
its trace holds no temp-file cleanup at all — refuting "the local temporary
artifact file is deleted on every exit path, including failure to stat the
created artifact". -/
theorem executeBackup_stat_failure_no_cleanup_cex :
    Ev.backupFull ∈ executeBackup envStatFail cfgFull ∧
    (executeBackup envStatFail cfgFull).filter isCleanup = [] := by
  constructor
  · simp [executeBackup, backupStage, updateBackupHistory, envStatFail,
      envAllOk, cfgFull]
  · simp [executeBackup, backupStage, updateBackupHistory, envStatFail,
      envAllOk, cfgFull, isCleanup]

/-- C3 amended: once the run has created an artifact at path `p`, the
temporary file is deleted whenever stat succeeds — on the success path and
on the folder-creation and upload failure paths alike — but when the stat of
the created artifact fails the run exits with no cleanup at all, so the
artifact may remain on disk. -/
theorem executeBackup_cleanup_amended (env : BackupEnv)
    (config : BackupConfig) (p : String) (hs : env.saveHistoryOk = true)
    (hn : env.newBackupResult = Except.ok ()) (hc : env.testConnOk = true)
    (hb : (config.backupMode = "full" ∧
            env.backupFullResult = Except.ok p) ∨
          (config.backupMode = "schema" ∧
            env.backupSchemaOnlyResult = Except.ok p)) :
    ((env.stat p).isSome = true →
      Ev.cleanupTempFile p ∈ executeBackup env config) ∧
    (env.stat p = none →
      (executeBackup env config).filter isCleanup = []) := by
  rcases hb with ⟨hm, he⟩ | ⟨hm, he⟩ <;>
  · constructor
    · intro hstat
      obtain ⟨sz, hsz⟩ := Option.isSome_iff_exists.mp hstat
      cases hf : env.folderResult with
      | error m =>
          simp [executeBackup, backupStage, updateBackupHistory, hs, hn, hc,
            hm, he, hsz, hf]
      | ok fid =>
          cases hu : env.uploadResult fid with
          | error m =>
              simp [executeBackup, backupStage, updateBackupHistory, hs, hn,
                hc, hm, he, hsz, hf, hu]
          | ok r =>
              simp [executeBackup, backupStage, updateBackupHistory, hs, hn,
                hc, hm, he, hsz, hf, hu]
    · intro hstat
      simp [executeBackup, backupStage, updateBackupHistory, hs, hn, hc, hm,
        he, hstat, isCleanup]

/-- Witness for the amended C3: in the all-success environment the cleanup
of the created artifact appears in the trace. -/
theorem executeBackup_cleanup_amended_witness :
    Ev.cleanupTempFile "/tmp/db-backups/x.sql" ∈ executeBackup envAllOk cfgFull :=
  (executeBackup_cleanup_amended envAllOk cfgFull "/tmp/db-backups/x.sql"
    rfl rfl rfl (Or.inl ⟨rfl, rfl⟩)).1 (by decide)

/-! ## Notification manager model

The manager's outcome dispatchers (`SendBackupSuccessNotification`,
`SendBackupErrorNotification`) and `TestNotification`, embedded from the
notification package. Webhook delivery is an oracle (`send`), and each
dispatcher also returns the trace of delivery start / completion events in
the order the code performs them. -/

/-- Go struct database.NotificationConfig. The opaque `Config` settings map
is represented by `parseOk`: whether marshalling it into the channel's
adapter config succeeds (the only thing the manager ever does with it). -/
structure NotificationConfig where
  name : String
  channel : String
  enabled : Bool
  parseOk : Bool
  notifyOnSuccess : Bool
  notifyOnError : Bool
deriving Repr, DecidableEq

/-- Go struct notification.NotificationResult (`SentAt` / `MessageID` are
clock and transport data, omitted). -/
structure NotificationResult where
  channel : String
  success : Bool
  error : String
deriving Repr, DecidableEq

/-- Delivery events of a dispatch: the start of a channel's `Send` call and
its completion. -/
inductive NEv where
  | sendStart (configName : String)
  | sendDone (configName : String)
deriving Repr, DecidableEq

/-- Oracle for the delivery transport: the error (if any) that sending to
the channel configured under a given config name produces. -/
structure NotifEnv where
  send : String → Option String

/-- Go method Manager.createNotifierFromConfig: only the chatwork, discord
and slack channel kinds are supported, and the settings must parse; returns
the created notifier's channel type. -/
def createNotifierFromConfig (config : NotificationConfig) : Option String :=
  if config.channel = "chatwork" ∨ config.channel = "discord" ∨
      config.channel = "slack" then
    if config.parseOk then some config.channel else none
  else none

/-- Go method Service.GetEnabledNotificationConfigs (database/service.go):
the stored configs with `enabled = true`. -/
def GetEnabledNotificationConfigs (db : List NotificationConfig) :
    List NotificationConfig :=
  db.filter (fun c => c.enabled)

/-- The `NotificationResult` one loop iteration records for a config whose
notifier (of channel type `kind`) was created: failure exactly when the
send oracle reports an error. -/
def sendResult (env : NotifEnv) (config : NotificationConfig)
    (kind : String) : NotificationResult :=
  match env.send config.name with
  | some e => ⟨kind, false, e⟩
  | none => ⟨kind, true, ""⟩

/-- The dispatch loop shared by both outcome dispatchers: per config, skip
when the outcome flag (`flag`) is unset, skip (with a log only) when the
notifier cannot be created, otherwise send synchronously and append the
result. Returns the results and the delivery-event trace in program order. -/
def dispatchLoop (env : NotifEnv) (flag : NotificationConfig → Bool) :
    List NotificationConfig → List NotificationResult × List NEv
  | [] => ([], [])
  | config :: rest =>
    if flag config = false then dispatchLoop env flag rest
    else
      match createNotifierFromConfig config with
      | none => dispatchLoop env flag rest
      | some kind =>
        let r := sendResult env config kind
        let rec_ := dispatchLoop env flag rest
        (r :: rec_.1,
          NEv.sendStart config.name :: NEv.sendDone config.name :: rec_.2)

/-- Go method Manager.SendBackupSuccessNotification: loads the enabled
configs and runs the loop filtered on `NotifyOnSuccess`. -/
def SendBackupSuccessNotification (env : NotifEnv)
    (db : List NotificationConfig) :
    List NotificationResult × List NEv :=
  dispatchLoop env (fun c => c.notifyOnSuccess)
    (GetEnabledNotificationConfigs db)

/-- Go method Manager.SendBackupErrorNotification: loads the enabled
configs and runs the loop filtered on `NotifyOnError`. -/
def SendBackupErrorNotification (env : NotifEnv)
    (db : List NotificationConfig) :
    List NotificationResult × List NEv :=
  dispatchLoop env (fun c => c.notifyOnError)
    (GetEnabledNotificationConfigs db)

/-- Go method Manager.TestNotification: look the config up by name, create
the notifier, send one synthetic message; every branch returns the stored
configs untouched (the function performs no write). -/
def TestNotification (env : NotifEnv) (db : List NotificationConfig)
    (configName : String) :
    Except String Unit × List NotificationConfig :=
  match db.find? (fun c => c.name == configName) with
  | none => (Except.error "failed to get notification config", db)
  | some config =>
    match createNotifierFromConfig config with
    | none => (Except.error "failed to create notifier", db)
    | some _ =>
      match env.send config.name with
      | some e => (Except.error e, db)
      | none => (Except.ok (), db)

/-- The configs a dispatch actually delivers to, paired with their notifier
channel type: enabled, outcome flag set, notifier creatable. -/
def deliverable (flag : NotificationConfig → Bool)
    (db : List NotificationConfig) : List (NotificationConfig × String) :=
  (GetEnabledNotificationConfigs db).filterMap
    (fun c =>
      if flag c then (createNotifierFromConfig c).map (fun k => (c, k))
      else none)

/-- Closed form of the dispatch loop: one result per deliverable config, in
order, each determined only by that config's own send outcome, and the event
trace is the per-config start/done blocks concatenated in order. -/
lemma dispatchLoop_spec (env : NotifEnv) (flag : NotificationConfig → Bool)
    (l : List NotificationConfig) :
    dispatchLoop env flag l =
      (((l.filterMap (fun c =>
          if flag c then (createNotifierFromConfig c).map (fun k => (c, k))
          else none)).map (fun q => sendResult env q.1 q.2)),
       ((l.filterMap (fun c =>
          if flag c then (createNotifierFromConfig c).map (fun k => (c, k))
          else none)).flatMap
            (fun q => [NEv.sendStart q.1.name, NEv.sendDone q.1.name]))) := by
  induction l with
  | nil => rfl
  | cons config rest ih =>
      by_cases hf : flag config = false
      · simp [dispatchLoop, hf, ih]
      · replace hf : flag config = true := by
          revert hf; cases flag config <;> simp
        cases hcr : createNotifierFromConfig config with
        | none => simp [dispatchLoop, hf, hcr, ih]
        | some kind => simp [dispatchLoop, hf, hcr, ih]

/-- Any delivery started by the dispatch loop belongs to a config of the
input list whose outcome flag is set. -/
lemma sendStart_mem_dispatchLoop (env : NotifEnv)
    (flag : NotificationConfig → Bool) (l : List NotificationConfig)
    (n : String) (h : NEv.sendStart n ∈ (dispatchLoop env flag l).2) :
    ∃ c ∈ l, c.name = n ∧ flag c = true := by
  rw [dispatchLoop_spec] at h
  simp only [List.mem_flatMap, List.mem_filterMap] at h
  obtain ⟨q, ⟨c, hcl, hg⟩, hmem⟩ := h
  by_cases hfc : flag c = true
  · rw [if_pos hfc] at hg
    obtain ⟨k, hk, hq⟩ := Option.map_eq_some'.mp hg
    subst hq
    simp only [List.mem_cons, List.mem_singleton] at hmem
    rcases hmem with hmem | hmem | hmem
    · exact ⟨c, hcl, (NEv.sendStart.injEq _ _ ▸ hmem.symm ▸ rfl : c.name = n), hfc⟩
    · exact absurd hmem (by simp)
    · exact absurd hmem (by simp)
  · rw [if_neg hfc] at hg
    exact absurd hg (by simp)

/-- C7: a channel receives a message only if its stored config is enabled
and its flag matching the outcome is set — every delivery of the success
dispatch traces back to an enabled config with `notifyOnSuccess`, and every
delivery of the error dispatch to an enabled config with `notifyOnError`;
disabled configs are never dispatched to. -/
theorem dispatch_only_enabled_matching (env : NotifEnv)
    (db : List NotificationConfig) (n : String) :
    (NEv.sendStart n ∈ (SendBackupSuccessNotification env db).2 →
      ∃ c ∈ db, c.name = n ∧ c.enabled = true ∧ c.notifyOnSuccess = true) ∧
    (NEv.sendStart n ∈ (SendBackupErrorNotification env db).2 →
      ∃ c ∈ db, c.name = n ∧ c.enabled = true ∧ c.notifyOnError = true) := by
  constructor
  · intro h
    obtain ⟨c, hc, hname, hflag⟩ := sendStart_mem_dispatchLoop env _ _ n h
    have hmem := List.mem_filter.mp hc
    exact ⟨c, hmem.1, hname, by simpa using hmem.2, hflag⟩
  · intro h
    obtain ⟨c, hc, hname, hflag⟩ := sendStart_mem_dispatchLoop env _ _ n h
    have hmem := List.mem_filter.mp hc
    exact ⟨c, hmem.1, hname, by simpa using hmem.2, hflag⟩

/-- Transport oracle on which every send succeeds. -/
def nEnvOk : NotifEnv := ⟨fun _ => none⟩

/-- A single enabled chatwork config with both outcome flags set. -/
def dbOneChatwork : List NotificationConfig :=
  [⟨"cw", "chatwork", true, true, true, true⟩]

/-- Witness for C7. -/
theorem dispatch_only_enabled_matching_witness :
    (∃ c ∈ dbOneChatwork,
      c.name = "cw" ∧ c.enabled = true ∧ c.notifyOnSuccess = true) ∧
    (∃ c ∈ dbOneChatwork,
      c.name = "cw" ∧ c.enabled = true ∧ c.notifyOnError = true) :=
  ⟨(dispatch_only_enabled_matching nEnvOk dbOneChatwork "cw").1 (by decide),
   (dispatch_only_enabled_matching nEnvOk dbOneChatwork "cw").2 (by decide)⟩

/-- Holds on delivery-start events. -/
def isStartEv : NEv → Bool
  | NEv.sendStart _ => true
  | _ => false

/-- Holds on delivery-completion events. -/
def isDoneEv : NEv → Bool
  | NEv.sendDone _ => true
  | _ => false

/-- A trace in which every delivery is started before any completion is
waited on: all start events precede all completion events. -/
def startsBeforeDones (tr : List NEv) : Bool :=
  (tr.dropWhile isStartEv).all isDoneEv

/-- Two enabled, creatable configs with both outcome flags set. -/
def dbTwoChannels : List NotificationConfig :=
  [⟨"a", "chatwork", true, true, true, true⟩,
   ⟨"b", "slack", true, true, true, true⟩]

/-- C2 counterexample: dispatching a success outcome to two matching
channels produces the trace start-a, done-a, start-b, done-b — the first
channel's delivery completes before the second even starts, so the
deliveries are not all started before any is waited on: the fan-out is
serial, not concurrent. -/
theorem successDispatch_serial_cex :
    (SendBackupSuccessNotification nEnvOk dbTwoChannels).2 =
      [NEv.sendStart "a", NEv.sendDone "a",
       NEv.sendStart "b", NEv.sendDone "b"] ∧
    startsBeforeDones (SendBackupSuccessNotification nEnvOk dbTwoChannels).2 =
      false := by
  constructor <;> rfl

/-- C2 amended: both outcome dispatchers deliver sequentially — the event
trace is exactly the concatenation, in stored-config order, of one
start-then-done block per deliverable channel, so each channel's delivery
completes before the next one starts (the concurrent fan-out/fan-in exists
only in `Manager.SendNotification`, which the outcome dispatchers do not
call). -/
theorem dispatch_trace_sequential (env : NotifEnv)
    (db : List NotificationConfig) :
    (SendBackupSuccessNotification env db).2 =
      (deliverable (fun c => c.notifyOnSuccess) db).flatMap
        (fun q => [NEv.sendStart q.1.name, NEv.sendDone q.1.name]) ∧
    (SendBackupErrorNotification env db).2 =
      (deliverable (fun c => c.notifyOnError) db).flatMap
        (fun q => [NEv.sendStart q.1.name, NEv.sendDone q.1.name]) := by
  constructor
  · rw [SendBackupSuccessNotification, dispatchLoop_spec]; rfl
  · rw [SendBackupErrorNotification, dispatchLoop_spec]; rfl

/-- Three enabled configs with `notifyOnSuccess` set, the middle one of an
unsupported channel kind ("email"). -/
def dbThreeOneBad : List NotificationConfig :=
  [⟨"cw", "chatwork", true, true, true, true⟩,
   ⟨"em", "email", true, true, true, true⟩,
   ⟨"sl", "slack", true, true, true, true⟩]

/-- C4 counterexample: with three enabled `notifyOnSuccess` channels, one of
an unsupported kind, the success dispatch returns only two results — the
channel whose notifier cannot be created is skipped without any result,
refuting "one result is returned per matching channel". -/
theorem successDispatch_missing_result_cex :
    ((GetEnabledNotificationConfigs dbThreeOneBad).filter
        (fun c => c.notifyOnSuccess)).length = 3 ∧
    (SendBackupSuccessNotification nEnvOk dbThreeOneBad).1.length = 2 := by
  constructor <;> rfl

/-- Transport oracle erroring exactly on the config named "dc". -/
def nEnvOneErr : NotifEnv :=
  ⟨fun n => if n = "dc" then some "404 from webhook" else none⟩

/-- Three enabled, creatable configs with `notifyOnSuccess` set. -/
def dbThreeGood : List NotificationConfig :=
  [⟨"cw", "chatwork", true, true, true, true⟩,
   ⟨"dc", "discord", true, true, true, true⟩,
   ⟨"sl", "slack", true, true, true, true⟩]

/-- C4 amended: the success dispatch returns exactly one result per matching
channel *whose notifier can be created* (supported kind, parsable settings),
in order; matching channels failing notifier creation are skipped with no
result. Each result is a function of that channel's own send outcome alone,
so one channel's send error is recorded in its own result and never prevents
delivery to, or alters the result of, any other channel: with three
creatable matching channels of which exactly the middle one errors on Send,
the dispatch returns three results — success, failure, success. -/
theorem successDispatch_results_amended (env : NotifEnv)
    (db : List NotificationConfig) :
    ((SendBackupSuccessNotification env db).1 =
      (deliverable (fun c => c.notifyOnSuccess) db).map
        (fun q => sendResult env q.1 q.2)) ∧
    (SendBackupSuccessNotification nEnvOneErr dbThreeGood).1.map
        (fun r => r.success) = [true, false, true] := by
  constructor
  · rw [SendBackupSuccessNotification, dispatchLoop_spec]; rfl
  · rfl

/-- Transport oracle on which every delivery fails, as with an invalid
webhook URL. -/
def nEnvBadHook : NotifEnv := ⟨fun _ => some "invalid webhook URL"⟩

/-- A single enabled discord config. -/
def dbOneDiscord : List NotificationConfig :=
  [⟨"dc", "discord", true, true, true, true⟩]

/-- C8: `TestChannel` (`TestNotification`) on a stored config whose delivery
fails returns that delivery error, and the stored channel configs are left
exactly as they were — the call performs no write to the config store. -/
theorem testChannel_error_no_mutation (env : NotifEnv)
    (db : List NotificationConfig) (configName e k : String)
    (c : NotificationConfig)
    (hfind : db.find? (fun x => x.name == configName) = some c)
    (hcr : createNotifierFromConfig c = some k)
    (hsend : env.send c.name = some e) :
    (TestNotification env db configName).1 = Except.error e ∧
    (TestNotification env db configName).2 = db := by
  simp [TestNotification, hfind, hcr, hsend]

/-- Witness for C8: testing the discord config against a transport that
rejects the webhook URL errors and leaves the store unchanged. -/
theorem testChannel_error_no_mutation_witness :
    (TestNotification nEnvBadHook dbOneDiscord "dc").1 =
      Except.error "invalid webhook URL" ∧
    (TestNotification nEnvBadHook dbOneDiscord "dc").2 = dbOneDiscord :=
  testChannel_error_no_mutation nEnvBadHook dbOneDiscord "dc"
    "invalid webhook URL" "discord" ⟨"dc", "discord", true, true, true, true⟩
    (by decide) (by decide) rfl

end Lazy
